import Mathlib

/-!
# Verification of the simple-login-website server (`src/server.js`)

Shallow embedding of the authentication core of `server.js`:
the in-memory user list, the `/register` and `/login` handlers, the
protected `/users` and `/profile` handlers, and the `authenticateToken`
middleware.  External collaborators (the `bcrypt` password hasher and the
`jsonwebtoken` issuer/verifier) are not part of the repository; they are
modelled from the spec's contracts with executable definitions.
JSON response bodies are modelled as a small JSON value type; machine
timestamps are `Nat` (seconds since epoch, the unit `jsonwebtoken` uses).
-/

namespace LoginServer

/-- JSON values, enough to state exact-response-body properties. -/
inductive Json where
  | str : String → Json
  | num : Nat → Json
  | arr : List Json → Json
  | obj : List (String × Json) → Json
deriving Repr

/-- An HTTP response: status code plus JSON body. -/
structure Response where
  status : Nat
  body : Json
deriving Repr

/-- A stored user record, mirroring the `newUser` object literal in
`server.js` (`id`, `username`, `email`, `password` (the bcrypt hash),
`createdAt`). `createdAt` is a timestamp in seconds. -/
structure User where
  id : Nat
  username : String
  email : String
  password : String
  createdAt : Nat
deriving Repr, DecidableEq

/-- JS truthiness test used by the handlers' `if (!field)` validation:
a destructured body field is "missing" when absent (`undefined`) or the
empty string (both falsy). -/
def isMissing : Option String → Bool
  | none => true
  | some s => s == ""

/-- Work factor: `BCRYPT_SALT_ROUNDS` defaults to 10 in `server.js`. -/
def BCRYPT_SALT_ROUNDS : Nat := 10

/-- Modelled from the spec: the Password Hasher's `hash(plaintext,
workFactor) -> hash string` (the `bcrypt` library is not part of the
repository).  An injective executable encoding standing in for the
salted one-way hash. -/
def bcryptHash (plaintext : String) (workFactor : Nat) : String :=
  "bcrypt$" ++ toString workFactor ++ "$" ++ plaintext

/-- Modelled from the spec: the Password Hasher's `verify(plaintext, hash)
-> boolean`, true exactly when the stored hash was produced from this
plaintext under the process-wide work factor. -/
def bcryptCompare (plaintext hash : String) : Bool :=
  hash == bcryptHash plaintext BCRYPT_SALT_ROUNDS

/-- Does a JSON value contain a field named `k` anywhere (object keys at
any depth)?  Used to state that responses never leak the password hash. -/
def Json.hasKey (k : String) : Json → Bool
  | .str _ => false
  | .num _ => false
  | .arr l => hasKeyArr k l
  | .obj l => hasKeyObj k l
where
  hasKeyArr (k : String) : List Json → Bool
    | [] => false
    | j :: rest => j.hasKey k || hasKeyArr k rest
  hasKeyObj (k : String) : List (String × Json) → Bool
    | [] => false
    | (s, j) :: rest => s == k || j.hasKey k || hasKeyObj k rest

/-! ## Token Issuer/Verifier

Modelled from the spec (the `jsonwebtoken` library is not part of the
repository): `issue(claims) -> token string` signs the claims plus a
24-hour expiry with the process-wide secret; `verify(token)` checks
well-formedness, signature and expiry, with error kinds `Malformed`,
`SignatureInvalid`, `Expired`.  The token string is an executable
injective encoding of the payload followed by the signature. -/

/-- Token claims: `{userId, email, username}` as signed at login, plus the
`iat`/`exp` timestamps `jsonwebtoken` adds (seconds since epoch). -/
structure JwtPayload where
  userId : Nat
  email : String
  username : String
  iat : Nat
  exp : Nat
deriving Repr, DecidableEq

/-- Verification error subtypes (`VerificationError`) from the spec. -/
inductive VerifyError where
  | malformed
  | signatureInvalid
  | expired
deriving Repr, DecidableEq

/-- Binary digits of `n`, least significant first, as `'0'`/`'1'`
characters; the first argument is structural fuel (`natToBits` passes
`n` itself, which always suffices). -/
def natToBitsF : Nat → Nat → List Char
  | _, 0 => []
  | 0, _ + 1 => []
  | f + 1, n + 1 =>
    (if (n + 1) % 2 = 1 then '1' else '0') :: natToBitsF f ((n + 1) / 2)

/-- Binary digits of `n`, least significant first. -/
def natToBits (n : Nat) : List Char := natToBitsF n n

/-- Inverse of `natToBits`. -/
def bitsToNat : List Char → Nat
  | [] => 0
  | c :: rest => (if c = '1' then 1 else 0) + 2 * bitsToNat rest

/-- A `Nat` in the token encoding: binary digits terminated by `';'`. -/
def encodeNat (n : Nat) : List Char := natToBits n ++ [';']

/-- Split at the first `';'`, returning the part before and after it. -/
def splitSemi : List Char → Option (List Char × List Char)
  | [] => none
  | c :: rest =>
    if c = ';' then some ([], rest)
    else (splitSemi rest).map (fun p => (c :: p.1, p.2))

/-- Decode a `Nat` from the front of the stream. -/
def decodeNat (l : List Char) : Option (Nat × List Char) :=
  (splitSemi l).map (fun p => (bitsToNat p.1, p.2))

/-- A string in the token encoding: its length, then its characters. -/
def encodeStr (s : String) : List Char := encodeNat s.length ++ s.data

/-- Decode a string from the front of the stream. -/
def decodeStr (l : List Char) : Option (String × List Char) :=
  match decodeNat l with
  | none => none
  | some (n, rest) =>
    if n ≤ rest.length then some (⟨rest.take n⟩, rest.drop n) else none

/-- The signed-claims part of a token. -/
def encodePayload (p : JwtPayload) : List Char :=
  encodeNat p.userId ++ encodeStr p.email ++ encodeStr p.username ++
    encodeNat p.iat ++ encodeNat p.exp

/-- Decode the claims part of a token. -/
def decodePayload (l : List Char) : Option (JwtPayload × List Char) :=
  match decodeNat l with
  | none => none
  | some (uid, r1) =>
    match decodeStr r1 with
    | none => none
    | some (em, r2) =>
      match decodeStr r2 with
      | none => none
      | some (un, r3) =>
        match decodeNat r3 with
        | none => none
        | some (ia, r4) =>
          match decodeNat r4 with
          | none => none
          | some (ex, r5) => some (⟨uid, em, un, ia, ex⟩, r5)

/-- The issue operation: sign the claims with the process-wide secret
(`jwt.sign(claims, JWT_SECRET, { expiresIn: "24h" })`). -/
def jwtSign (p : JwtPayload) (secret : String) : String :=
  ⟨encodePayload p ++ encodeStr secret⟩

/-- The verify operation: check well-formedness, then the signature, then expiry
(`jsonwebtoken` rejects once the clock reaches `exp`). -/
def jwtVerify (token : List Char) (secret : String) (now : Nat) :
    Except VerifyError JwtPayload :=
  match decodePayload token with
  | none => .error .malformed
  | some (p, rest) =>
    match decodeStr rest with
    | none => .error .malformed
    | some (sig, rest2) =>
      if rest2 ≠ [] then .error .malformed
      else if sig ≠ secret then .error .signatureInvalid
      else if p.exp ≤ now then .error .expired
      else .ok p

/-! ## Credential Store lifecycle and the durable-store adapter -/

/-- The `loadUsers` startup load.  Its input is the parse result of the
data file (`none` for a missing/corrupt file); `JSON.parse(data).users ||
[]` yields whatever user list the file holds, or the empty list. -/
def loadUsers : Option (List User) → List User
  | none => []
  | some l => l

/-- The `saveUsers` flush of the list through the durable-store adapter
(`fs.writeFile`), catching and logging any failure — the caller never
sees an error (`try { ... } catch (error) { console.error(...) }`). -/
def saveUsers (fsWrite : List User → Except String Unit) (users : List User) :
    Unit :=
  match fsWrite users with
  | .ok _ => ()
  | .error _ => ()

/-! ## `/register` and `/login` handlers -/

/-- The parsed body of a `POST /register` request; `none` marks an absent
field. -/
structure RegisterRequest where
  username : Option String
  email : Option String
  password : Option String
deriving Repr

/-- The parsed body of a `POST /login` request. -/
structure LoginRequest where
  email : Option String
  password : Option String
deriving Repr

/-- The `POST /register` handler.  `now` is the current timestamp
(`new Date()`), `fsWrite` the durable-store adapter.  Returns the
response together with the user list after the request. -/
def register (users : List User) (req : RegisterRequest) (now : Nat)
    (fsWrite : List User → Except String Unit) : Response × List User :=
  if isMissing req.username || isMissing req.email || isMissing req.password
  then
    (⟨400, .obj [("error", .str "All fields are required")]⟩, users)
  else
    let username := req.username.getD ""
    let email := req.email.getD ""
    let password := req.password.getD ""
    match users.find? (fun u => u.email == email) with
    | some _ =>
      (⟨409, .obj [("message", .str "Email already registered")]⟩, users)
    | none =>
      let hashedPassword := bcryptHash password BCRYPT_SALT_ROUNDS
      let newUser : User :=
        ⟨users.length + 1, username, email, hashedPassword, now⟩
      let users' := users ++ [newUser]
      let _ := saveUsers fsWrite users'
      (⟨201, .obj [("message", .str "User registered successfully")]⟩, users')

/-- The claims `login` signs for user `u` at time `now`, with the 24-hour
expiry `jsonwebtoken` derives from `expiresIn: "24h"`. -/
def mkLoginPayload (u : User) (now : Nat) : JwtPayload :=
  ⟨u.id, u.email, u.username, now, now + 86400⟩

/-- The public user view returned by `/login` (and, via rest-spread, by
`/users` and `/profile`): `id`, `username`, `email`, `createdAt` — no
password hash. -/
def publicJson (u : User) : Json :=
  .obj [("id", .num u.id), ("username", .str u.username),
        ("email", .str u.email), ("createdAt", .num u.createdAt)]

/-- The `POST /login` handler.  `secret` is the process-wide
`JWT_SECRET`, `now` the current time in seconds. -/
def login (users : List User) (req : LoginRequest) (secret : String)
    (now : Nat) : Response :=
  if isMissing req.email || isMissing req.password then
    ⟨400, .obj [("error", .str "Email and password are required")]⟩
  else
    let email := req.email.getD ""
    let password := req.password.getD ""
    match users.find? (fun u => u.email == email) with
    | none => ⟨401, .obj [("error", .str "Invalid email or password")]⟩
    | some user =>
      if bcryptCompare password user.password then
        let token := jwtSign (mkLoginPayload user now) secret
        ⟨200, .obj [("message", .str "Login successful"),
                    ("token", .str token),
                    ("user", publicJson user)]⟩
      else ⟨401, .obj [("error", .str "Invalid email or password")]⟩

/-- The `token` field of a response body, as a client would read it. -/
def responseToken (r : Response) : Option String :=
  match r.body with
  | .obj fields =>
    match fields.lookup "token" with
    | some (.str t) => some t
    | _ => none
  | _ => none

/-! ## Protected routes and the request gate -/

/-- JS `String.prototype.split(" ")`: split on every single space,
keeping empty chunks (`"a  b"` → `["a", "", "b"]`, `""` → `[""]`). -/
def splitSp : List Char → List (List Char)
  | [] => [[]]
  | c :: rest =>
    if c = ' ' then [] :: splitSp rest
    else
      match splitSp rest with
      | [] => [[c]]
      | w :: ws => (c :: w) :: ws

/-- JS `authHeader && authHeader.split(" ")[1]`: the token candidate
extracted from the authorization header (element 1 of the split, absent
when the header is missing or has no space). -/
def extractToken (header : Option String) : Option (List Char) :=
  header.bind (fun h => (splitSp h.data).get? 1)

/-- Outcome of the `authenticateToken` middleware: either an early
response, or proceed with the verified claims attached (`req.user`). -/
inductive GateResult where
  | response : Response → GateResult
  | proceed : JwtPayload → GateResult
deriving Repr

/-- The `authenticateToken` middleware.  A missing or empty (falsy) token
candidate gives 401; a failed verification of any kind gives 403; success
attaches the claims. -/
def authenticateToken (header : Option String) (secret : String)
    (now : Nat) : GateResult :=
  match extractToken header with
  | none => .response ⟨401, .obj [("error", .str "Access token required")]⟩
  | some t =>
    if t = [] then
      .response ⟨401, .obj [("error", .str "Access token required")]⟩
    else
      match jwtVerify t secret now with
      | .error _ =>
        .response ⟨403, .obj [("error", .str "Invalid or expired token")]⟩
      | .ok p => .proceed p

/-- The `GET /users` handler body (after the gate):
`users.map(({ password, ...user }) => user)`, status 200. -/
def usersHandler (users : List User) : Response :=
  ⟨200, .arr (users.map publicJson)⟩

/-- The `GET /profile` handler body (after the gate): look up
`req.user.userId`; 404 when absent, else the public view. -/
def profileHandler (users : List User) (claims : JwtPayload) : Response :=
  match users.find? (fun u => u.id == claims.userId) with
  | none => ⟨404, .obj [("error", .str "User not found")]⟩
  | some u =>
    ⟨200, publicJson u⟩

/-- A sequence of `/register` requests applied in order to a store
(each with its timestamp and adapter outcome). -/
def runRegs (reqs : List (RegisterRequest × Nat))
    (fsWrite : List User → Except String Unit) (users : List User) :
    List User :=
  match reqs with
  | [] => users
  | (r, t) :: rest => runRegs rest fsWrite (register users r t fsWrite).2

/-! ## Codec round-trip lemmas -/

theorem semi_not_mem_natToBitsF (f n : Nat) : ';' ∉ natToBitsF f n := by
  induction f generalizing n with
  | zero => cases n <;> simp [natToBitsF]
  | succ f ih =>
    cases n with
    | zero => simp [natToBitsF]
    | succ n =>
      simp only [natToBitsF, List.mem_cons, not_or]
      refine ⟨?_, ih _⟩
      split <;> decide

theorem bitsToNat_natToBitsF (f n : Nat) (h : n ≤ f) :
    bitsToNat (natToBitsF f n) = n := by
  induction f generalizing n with
  | zero =>
    have hn : n = 0 := Nat.le_zero.mp h
    subst hn; rfl
  | succ f ih =>
    cases n with
    | zero => rfl
    | succ n =>
      have hrec : bitsToNat (natToBitsF f ((n + 1) / 2)) = (n + 1) / 2 :=
        ih _ (by omega)
      simp only [natToBitsF, bitsToNat, hrec]
      have h01 : ('0' : Char) ≠ '1' := by decide
      by_cases hmod : (n + 1) % 2 = 1
      · rw [if_pos hmod, if_pos rfl]; omega
      · rw [if_neg hmod, if_neg h01]; omega

theorem bitsToNat_natToBits (n : Nat) : bitsToNat (natToBits n) = n :=
  bitsToNat_natToBitsF n n (Nat.le_refl n)

theorem splitSemi_append (a r : List Char) (h : ';' ∉ a) :
    splitSemi (a ++ ';' :: r) = some (a, r) := by
  induction a with
  | nil => simp [splitSemi]
  | cons c a ih =>
    have hc : c ≠ ';' := by
      intro hc; exact h (hc ▸ List.mem_cons_self c a)
    have ha : ';' ∉ a := fun hm => h (List.mem_cons_of_mem c hm)
    simp [splitSemi, hc, ih ha]

theorem decodeNat_encodeNat (n : Nat) (r : List Char) :
    decodeNat (encodeNat n ++ r) = some (n, r) := by
  have : encodeNat n ++ r = natToBits n ++ ';' :: r := by
    simp [encodeNat, List.append_assoc]
  rw [this]
  unfold decodeNat
  rw [splitSemi_append (natToBits n) r (semi_not_mem_natToBitsF n n)]
  simp [bitsToNat_natToBits]

theorem decodeStr_encodeStr (s : String) (r : List Char) :
    decodeStr (encodeStr s ++ r) = some (s, r) := by
  have h1 : encodeStr s ++ r = encodeNat s.length ++ (s.data ++ r) := by
    simp [encodeStr, List.append_assoc]
  rw [h1]
  simp only [decodeStr, decodeNat_encodeNat]
  have hle : s.length ≤ (s.data ++ r).length := by
    rw [List.length_append]
    exact Nat.le_add_right s.data.length r.length
  rw [if_pos hle]
  have htake : (s.data ++ r).take s.data.length = s.data :=
    List.take_left s.data r
  have hdrop : (s.data ++ r).drop s.data.length = r :=
    List.drop_left s.data r
  show some (⟨(s.data ++ r).take s.data.length⟩,
      (s.data ++ r).drop s.data.length) = some (s, r)
  rw [htake, hdrop]

set_option maxRecDepth 4000 in
theorem decodePayload_encodePayload (p : JwtPayload) (r : List Char) :
    decodePayload (encodePayload p ++ r) = some (p, r) := by
  have h1 : encodePayload p ++ r =
      encodeNat p.userId ++ (encodeStr p.email ++ (encodeStr p.username ++
        (encodeNat p.iat ++ (encodeNat p.exp ++ r)))) := by
    simp [encodePayload, List.append_assoc]
  rw [h1]
  simp only [decodePayload, decodeNat_encodeNat, decodeStr_encodeStr]

set_option maxRecDepth 4000 in
/-- The issue/verify contract: a signed token verifies under the same
secret, yielding the signed claims while the clock is before `exp` and an
expiry error from `exp` on. -/
theorem jwtVerify_jwtSign (p : JwtPayload) (secret : String) (now : Nat) :
    jwtVerify (jwtSign p secret).data secret now =
      if p.exp ≤ now then .error .expired else .ok p := by
  have hdata : (jwtSign p secret).data = encodePayload p ++ encodeStr secret :=
    rfl
  rw [hdata]
  have h2 : decodeStr (encodeStr secret) = some (secret, []) := by
    have := decodeStr_encodeStr secret []
    simpa using this
  simp only [jwtVerify, decodePayload_encodePayload, h2]
  simp

/-! ## Handler helper lemmas -/

/-- The record `register` appends on success. -/
def mkNewUser (users : List User) (req : RegisterRequest) (now : Nat) : User :=
  ⟨users.length + 1, req.username.getD "", req.email.getD "",
    bcryptHash (req.password.getD "") BCRYPT_SALT_ROUNDS, now⟩

theorem bcryptHash_ne_empty (p : String) (w : Nat) : bcryptHash p w ≠ "" := by
  intro h
  have hd := congrArg String.data h
  rw [bcryptHash] at hd
  simp [String.data_append] at hd

theorem isMissing_some_iff (s : String) : isMissing (some s) = false ↔ s ≠ "" := by
  simp [isMissing]

theorem register_success (users : List User) (req : RegisterRequest)
    (now : Nat) (fsWrite : List User → Except String Unit)
    (hu : isMissing req.username = false)
    (he : isMissing req.email = false)
    (hp : isMissing req.password = false)
    (hfind : users.find? (fun u => u.email == req.email.getD "") = none) :
    register users req now fsWrite =
      (⟨201, .obj [("message", .str "User registered successfully")]⟩,
       users ++ [mkNewUser users req now]) := by
  simp [register, hu, he, hp, hfind, mkNewUser]

theorem getD_ne_empty_of_not_missing (v : Option String)
    (h : isMissing v = false) : v.getD "" ≠ "" := by
  cases v with
  | none => simp [isMissing] at h
  | some s => simpa [isMissing] using h

/-- The `register` handler either leaves the store unchanged or (when validation and
the uniqueness check passed) appends exactly the new record. -/
theorem register_store_shape (users : List User) (req : RegisterRequest)
    (now : Nat) (fsWrite : List User → Except String Unit) :
    (register users req now fsWrite).2 = users ∨
      ((register users req now fsWrite).2 = users ++ [mkNewUser users req now] ∧
        isMissing req.username = false ∧ isMissing req.email = false ∧
        isMissing req.password = false) := by
  by_cases hv : (isMissing req.username || isMissing req.email ||
      isMissing req.password) = true
  · left; simp [register, hv]
  · cases hfind : users.find? (fun u => u.email == req.email.getD "") with
    | some u => left; simp [register, hv, hfind]
    | none =>
      right
      simp only [Bool.or_eq_true, not_or, Bool.not_eq_true] at hv
      obtain ⟨⟨hu, he⟩, hp⟩ := hv
      refine ⟨?_, hu, he, hp⟩
      simp [register_success users req now fsWrite hu he hp hfind]

/-! ## Claim theorems -/

/-- C1: for login requests with both fields present, the failure response
for a nonexistent email and the failure response for an existing email
with a wrong password are identical: both are status 401 with the exact
same body `{"error": "Invalid email or password"}`, so the two failure
causes are indistinguishable to the caller. -/
theorem login_failures_indistinguishable
    (users : List User) (u : User) (e1 p1 e2 p2 secret : String)
    (now1 now2 : Nat)
    (he1 : e1 ≠ "") (hp1 : p1 ≠ "") (he2 : e2 ≠ "") (hp2 : p2 ≠ "")
    (hnone : users.find? (fun v => v.email == e1) = none)
    (hfound : users.find? (fun v => v.email == e2) = some u)
    (hwrong : bcryptCompare p2 u.password = false) :
    login users ⟨some e1, some p1⟩ secret now1 =
      ⟨401, .obj [("error", .str "Invalid email or password")]⟩ ∧
    login users ⟨some e2, some p2⟩ secret now2 =
      ⟨401, .obj [("error", .str "Invalid email or password")]⟩ ∧
    login users ⟨some e1, some p1⟩ secret now1 =
      login users ⟨some e2, some p2⟩ secret now2 := by
  have h1 : login users ⟨some e1, some p1⟩ secret now1 =
      ⟨401, .obj [("error", .str "Invalid email or password")]⟩ := by
    simp [login, isMissing, he1, hp1, hnone]
  have h2 : login users ⟨some e2, some p2⟩ secret now2 =
      ⟨401, .obj [("error", .str "Invalid email or password")]⟩ := by
    simp [login, isMissing, he2, hp2, hfound, hwrong]
  exact ⟨h1, h2, h1.trans h2.symm⟩

/-- C1 witness: a concrete store where the nonexistent-email failure and
the wrong-password failure produce byte-identical 401 responses. -/
theorem login_failures_indistinguishable_witness :
    login [⟨1, "alice", "a@x.com", bcryptHash "pw" BCRYPT_SALT_ROUNDS, 0⟩]
        ⟨some "b@x.com", some "z"⟩ "sec" 0 =
      ⟨401, .obj [("error", .str "Invalid email or password")]⟩ ∧
    login [⟨1, "alice", "a@x.com", bcryptHash "pw" BCRYPT_SALT_ROUNDS, 0⟩]
        ⟨some "a@x.com", some "wrong"⟩ "sec" 7 =
      ⟨401, .obj [("error", .str "Invalid email or password")]⟩ ∧
    login [⟨1, "alice", "a@x.com", bcryptHash "pw" BCRYPT_SALT_ROUNDS, 0⟩]
        ⟨some "b@x.com", some "z"⟩ "sec" 0 =
      login [⟨1, "alice", "a@x.com", bcryptHash "pw" BCRYPT_SALT_ROUNDS, 0⟩]
        ⟨some "a@x.com", some "wrong"⟩ "sec" 7 :=
  login_failures_indistinguishable
    [⟨1, "alice", "a@x.com", bcryptHash "pw" BCRYPT_SALT_ROUNDS, 0⟩]
    ⟨1, "alice", "a@x.com", bcryptHash "pw" BCRYPT_SALT_ROUNDS, 0⟩
    "b@x.com" "z" "a@x.com" "wrong" "sec" 0 7
    (by decide) (by decide) (by decide) (by decide) rfl rfl (by decide)

/-- C2: when the store contains a user with email `e`, a registration
request for `e` (with all fields present) returns 409 with message
"Email already registered" and leaves the store unchanged. -/
theorem register_duplicate_email_conflict
    (users : List User) (u : User) (req : RegisterRequest) (e : String)
    (now : Nat) (fsWrite : List User → Except String Unit)
    (hu : isMissing req.username = false)
    (hp : isMissing req.password = false)
    (he : req.email = some e) (hne : e ≠ "")
    (hmem : u ∈ users) (hemail : u.email = e) :
    register users req now fsWrite =
      (⟨409, .obj [("message", .str "Email already registered")]⟩, users) := by
  have hsome : (users.find? (fun v => v.email == e)).isSome = true := by
    rw [List.find?_isSome]
    exact ⟨u, hmem, by simp [hemail]⟩
  obtain ⟨w, hw⟩ := Option.isSome_iff_exists.mp hsome
  have hmiss : isMissing req.email = false := by
    rw [he, isMissing_some_iff]; exact hne
  have hgetD : req.email.getD "" = e := by rw [he]; rfl
  simp [register, hu, hp, hmiss, hgetD, hw]

/-- C2 witness: the second registration of `a@x.com` returns 409 and the
store still holds exactly the first user. -/
theorem register_duplicate_email_conflict_witness :
    register [⟨1, "alice", "a@x.com", bcryptHash "pw" BCRYPT_SALT_ROUNDS, 0⟩]
        ⟨some "bob", some "a@x.com", some "other"⟩ 9 (fun _ => .ok ()) =
      (⟨409, .obj [("message", .str "Email already registered")]⟩,
       [⟨1, "alice", "a@x.com", bcryptHash "pw" BCRYPT_SALT_ROUNDS, 0⟩]) :=
  register_duplicate_email_conflict
    [⟨1, "alice", "a@x.com", bcryptHash "pw" BCRYPT_SALT_ROUNDS, 0⟩]
    ⟨1, "alice", "a@x.com", bcryptHash "pw" BCRYPT_SALT_ROUNDS, 0⟩
    ⟨some "bob", some "a@x.com", some "other"⟩ "a@x.com" 9 (fun _ => .ok ())
    (by decide) (by decide) rfl (by decide) (List.mem_singleton.mpr rfl) rfl

/-- C4: when the durable-storage flush fails during a registration that
passed validation and the uniqueness check, the registration still
returns 201 and the new record is in the in-memory store; the outcome is
identical to a registration whose flush succeeds, so the failure is never
propagated to the caller. -/
theorem register_flush_failure_still_successful
    (users : List User) (req : RegisterRequest) (now : Nat) (err : String)
    (hu : isMissing req.username = false)
    (he : isMissing req.email = false)
    (hp : isMissing req.password = false)
    (hfind : users.find? (fun u => u.email == req.email.getD "") = none) :
    register users req now (fun _ => .error err) =
      (⟨201, .obj [("message", .str "User registered successfully")]⟩,
       users ++ [mkNewUser users req now]) ∧
    register users req now (fun _ => .error err) =
      register users req now (fun _ => .ok ()) := by
  refine ⟨register_success users req now _ hu he hp hfind, ?_⟩
  rw [register_success users req now _ hu he hp hfind,
    register_success users req now _ hu he hp hfind]

/-- C4 witness: a registration whose flush fails with "disk full" still
responds 201 and keeps the record in memory. -/
theorem register_flush_failure_still_successful_witness :
    register [] ⟨some "alice", some "a@x.com", some "pw"⟩ 3
        (fun _ => .error "disk full") =
      (⟨201, .obj [("message", .str "User registered successfully")]⟩,
       [] ++ [mkNewUser [] ⟨some "alice", some "a@x.com", some "pw"⟩ 3]) ∧
    register [] ⟨some "alice", some "a@x.com", some "pw"⟩ 3
        (fun _ => .error "disk full") =
      register [] ⟨some "alice", some "a@x.com", some "pw"⟩ 3
        (fun _ => .ok ()) :=
  register_flush_failure_still_successful []
    ⟨some "alice", some "a@x.com", some "pw"⟩ 3 "disk full"
    (by decide) (by decide) (by decide) rfl

/-- C10: field-presence validation treats empty strings as missing — a
registration or login whose required field is absent or empty is rejected
with 400 and an unchanged store, and every user record ever added by the
API has a non-empty username, email and (hashed) password. -/
theorem empty_fields_rejected :
    (∀ (users : List User) (req : RegisterRequest) (now : Nat)
        (fsWrite : List User → Except String Unit),
      (isMissing req.username || isMissing req.email ||
        isMissing req.password) = true →
      register users req now fsWrite =
        (⟨400, .obj [("error", .str "All fields are required")]⟩, users)) ∧
    (∀ (users : List User) (req : LoginRequest) (secret : String) (now : Nat),
      (isMissing req.email || isMissing req.password) = true →
      login users req secret now =
        ⟨400, .obj [("error", .str "Email and password are required")]⟩) ∧
    (∀ (users : List User) (req : RegisterRequest) (now : Nat)
        (fsWrite : List User → Except String Unit) (u : User),
      u ∈ (register users req now fsWrite).2 →
      u ∈ users ∨ (u.username ≠ "" ∧ u.email ≠ "" ∧ u.password ≠ "")) := by
  refine ⟨?_, ?_, ?_⟩
  · intro users req now fsWrite hv
    simp [register, hv]
  · intro users req secret now hv
    simp [login, hv]
  · intro users req now fsWrite u hmem
    rcases register_store_shape users req now fsWrite with hsh | ⟨hsh, hu, he, hp⟩
    · rw [hsh] at hmem; exact Or.inl hmem
    · rw [hsh] at hmem
      rcases List.mem_append.mp hmem with hin | hnew
      · exact Or.inl hin
      · right
        have heq : u = mkNewUser users req now := List.mem_singleton.mp hnew
        subst heq
        exact ⟨getD_ne_empty_of_not_missing _ hu,
          getD_ne_empty_of_not_missing _ he, bcryptHash_ne_empty _ _⟩

/-- C10 witness: a registration with an empty password and a login with an
absent email are both rejected with 400, and a record added by a valid
registration has non-empty fields. -/
theorem empty_fields_rejected_witness :
    register [] ⟨some "alice", some "a@x.com", some ""⟩ 0 (fun _ => .ok ()) =
      (⟨400, .obj [("error", .str "All fields are required")]⟩, []) ∧
    login [] ⟨none, some "pw"⟩ "sec" 0 =
      ⟨400, .obj [("error", .str "Email and password are required")]⟩ ∧
    (mkNewUser [] ⟨some "alice", some "a@x.com", some "pw"⟩ 0 ∈ [] ∨
      ((mkNewUser [] ⟨some "alice", some "a@x.com", some "pw"⟩ 0).username ≠ "" ∧
       (mkNewUser [] ⟨some "alice", some "a@x.com", some "pw"⟩ 0).email ≠ "" ∧
       (mkNewUser [] ⟨some "alice", some "a@x.com", some "pw"⟩ 0).password ≠ "")) :=
  ⟨empty_fields_rejected.1 [] ⟨some "alice", some "a@x.com", some ""⟩ 0
      (fun _ => .ok ()) (by decide),
   empty_fields_rejected.2.1 [] ⟨none, some "pw"⟩ "sec" 0 (by decide),
   empty_fields_rejected.2.2 [] ⟨some "alice", some "a@x.com", some "pw"⟩ 0
      (fun _ => .ok ()) (mkNewUser [] ⟨some "alice", some "a@x.com", some "pw"⟩ 0)
      (by rw [register_success [] ⟨some "alice", some "a@x.com", some "pw"⟩ 0
               (fun _ => .ok ()) (by decide) (by decide) (by decide) rfl]
          exact List.mem_append.mpr (Or.inr (List.mem_singleton.mpr rfl)))⟩

/-- C3: registering a fresh email with non-empty fields returns 201, and
a subsequent login with the same credentials against the resulting store
returns 200 with a token the verifier accepts under the same process
secret. -/
theorem register_then_login_roundtrip
    (users : List User) (username email password secret : String)
    (now1 now2 : Nat) (fsWrite : List User → Except String Unit)
    (hu : username ≠ "") (he : email ≠ "") (hp : password ≠ "")
    (hfresh : email ∉ users.map (·.email)) :
    (register users ⟨some username, some email, some password⟩ now1
        fsWrite).1.status = 201 ∧
    (login (register users ⟨some username, some email, some password⟩ now1
          fsWrite).2 ⟨some email, some password⟩ secret now2).status = 200 ∧
    ∃ tok : String,
      responseToken (login (register users
          ⟨some username, some email, some password⟩ now1 fsWrite).2
          ⟨some email, some password⟩ secret now2) = some tok ∧
      jwtVerify tok.data secret now2 =
        .ok (mkLoginPayload
          (mkNewUser users ⟨some username, some email, some password⟩ now1)
          now2) := by
  set req : RegisterRequest := ⟨some username, some email, some password⟩
  have hfind : users.find? (fun u => u.email == email) = none := by
    rw [List.find?_eq_none]
    intro x hx
    simp only [beq_iff_eq]
    intro hxe
    exact hfresh (List.mem_map.mpr ⟨x, hx, hxe⟩)
  have hreg := register_success users req now1 fsWrite
    ((isMissing_some_iff username).mpr hu)
    ((isMissing_some_iff email).mpr he)
    ((isMissing_some_iff password).mpr hp) hfind
  set newU : User := mkNewUser users req now1 with hnewU
  have hnewEmail : newU.email = email := rfl
  have hnewPw : newU.password = bcryptHash password BCRYPT_SALT_ROUNDS := rfl
  have hfind2 : (users ++ [newU]).find? (fun u => u.email == email) =
      some newU := by
    rw [List.find?_append, hfind]
    simp [List.find?, hnewEmail]
  have hlogin : login (users ++ [newU]) ⟨some email, some password⟩ secret
      now2 =
      ⟨200, .obj [("message", .str "Login successful"),
                  ("token", .str (jwtSign (mkLoginPayload newU now2) secret)),
                  ("user", publicJson newU)]⟩ := by
    simp [login, isMissing, he, hp, hfind2, bcryptCompare, hnewPw]
  rw [hreg]
  refine ⟨rfl, ?_, ?_⟩
  · rw [hlogin]
  · refine ⟨jwtSign (mkLoginPayload newU now2) secret, ?_, ?_⟩
    · rw [hlogin]
      rfl
    · rw [jwtVerify_jwtSign]
      have : ¬ (mkLoginPayload newU now2).exp ≤ now2 := by
        simp [mkLoginPayload]
      rw [if_neg this]

/-- C3 witness: the concrete register-then-login round trip for
`alice / a@x.com / pw` succeeds and yields a verifiable token. -/
theorem register_then_login_roundtrip_witness :
    (register [] ⟨some "alice", some "a@x.com", some "pw"⟩ 0
        (fun _ => .ok ())).1.status = 201 ∧
    (login (register [] ⟨some "alice", some "a@x.com", some "pw"⟩ 0
          (fun _ => .ok ())).2 ⟨some "a@x.com", some "pw"⟩ "sec" 5).status =
      200 ∧
    ∃ tok : String,
      responseToken (login (register []
          ⟨some "alice", some "a@x.com", some "pw"⟩ 0 (fun _ => .ok ())).2
          ⟨some "a@x.com", some "pw"⟩ "sec" 5) = some tok ∧
      jwtVerify tok.data "sec" 5 =
        .ok (mkLoginPayload
          (mkNewUser [] ⟨some "alice", some "a@x.com", some "pw"⟩ 0) 5) :=
  register_then_login_roundtrip [] "alice" "a@x.com" "pw" "sec" 0 5
    (fun _ => .ok ()) (by decide) (by decide) (by decide) (by decide)

/-- C5: a token issued at login time `T` carries a fixed 24-hour
lifetime: verification under the issuing secret succeeds at any time
strictly before `T + 86400` seconds and fails with an expiry error at any
time after `T + 86400`. -/
theorem token_lifetime_24h (u : User) (secret : String) (T t : Nat) :
    (t < T + 86400 →
      jwtVerify (jwtSign (mkLoginPayload u T) secret).data secret t =
        .ok (mkLoginPayload u T)) ∧
    (T + 86400 < t →
      jwtVerify (jwtSign (mkLoginPayload u T) secret).data secret t =
        .error .expired) := by
  constructor
  · intro ht
    rw [jwtVerify_jwtSign]
    exact if_neg (by simp [mkLoginPayload]; omega)
  · intro ht
    rw [jwtVerify_jwtSign]
    exact if_pos (by simp [mkLoginPayload]; omega)

/-- C5 witness: a token issued at `T = 0` is accepted at `T + 23h59m`
(86340 s) and rejected as expired at `T + 24h01m` (86460 s). -/
theorem token_lifetime_24h_witness :
    jwtVerify (jwtSign (mkLoginPayload ⟨1, "alice", "a@x.com", "h", 0⟩ 0)
        "sec").data "sec" 86340 =
      .ok (mkLoginPayload ⟨1, "alice", "a@x.com", "h", 0⟩ 0) ∧
    jwtVerify (jwtSign (mkLoginPayload ⟨1, "alice", "a@x.com", "h", 0⟩ 0)
        "sec").data "sec" 86460 =
      .error .expired :=
  ⟨(token_lifetime_24h ⟨1, "alice", "a@x.com", "h", 0⟩ "sec" 0 86340).1
      (by decide),
   (token_lifetime_24h ⟨1, "alice", "a@x.com", "h", 0⟩ "sec" 0 86460).2
      (by decide)⟩

theorem hasKey_publicJson (u : User) :
    (publicJson u).hasKey "password" = false := by
  simp [publicJson, Json.hasKey, Json.hasKey.hasKeyObj]

theorem hasKeyArr_map_publicJson (users : List User) :
    Json.hasKey.hasKeyArr "password" (users.map publicJson) = false := by
  induction users with
  | nil => rfl
  | cons u rest ih =>
    simp [Json.hasKey.hasKeyArr, hasKey_publicJson, ih]

/-- C6: the response bodies of `GET /users`, `GET /profile`, and `POST
/login` never contain a `password` field at any depth: returned user
views consist only of the non-password fields of the stored record. -/
theorem responses_never_contain_password
    (users : List User) (claims : JwtPayload) (req : LoginRequest)
    (secret : String) (now : Nat) :
    (usersHandler users).body.hasKey "password" = false ∧
    (profileHandler users claims).body.hasKey "password" = false ∧
    (login users req secret now).body.hasKey "password" = false := by
  refine ⟨?_, ?_, ?_⟩
  · simp only [usersHandler, Json.hasKey]
    exact hasKeyArr_map_publicJson users
  · cases hfind : users.find? (fun u => u.id == claims.userId) with
    | none =>
      simp [profileHandler, hfind, Json.hasKey, Json.hasKey.hasKeyObj]
    | some u =>
      simp only [profileHandler, hfind]
      exact hasKey_publicJson u
  · by_cases hv : (isMissing req.email || isMissing req.password) = true
    · simp [login, hv, Json.hasKey, Json.hasKey.hasKeyObj]
    · cases hfind : users.find? (fun u => u.email == req.email.getD "") with
      | none =>
        simp [login, hv, hfind, Json.hasKey, Json.hasKey.hasKeyObj]
      | some u =>
        by_cases hpw : bcryptCompare (req.password.getD "") u.password = true
        · simp [login, hv, hfind, hpw, publicJson, Json.hasKey,
            Json.hasKey.hasKeyObj]
        · simp [login, hv, hfind, hpw, Json.hasKey, Json.hasKey.hasKeyObj]

/-- C7: the request gate returns 401 "Access token required" when no
(non-empty) bearer token can be extracted from the authorization header,
403 with the single message "Invalid or expired token" when a token is
extracted but verification fails for any reason, and attaches the claims
and proceeds when verification succeeds. -/
theorem gate_response_trichotomy (header : Option String) (secret : String)
    (now : Nat) :
    ((extractToken header = none ∨ extractToken header = some []) →
      authenticateToken header secret now =
        .response ⟨401, .obj [("error", .str "Access token required")]⟩) ∧
    (∀ t, extractToken header = some t → t ≠ [] →
      (∀ e, jwtVerify t secret now = .error e →
        authenticateToken header secret now =
          .response ⟨403, .obj [("error", .str "Invalid or expired token")]⟩) ∧
      (∀ p, jwtVerify t secret now = .ok p →
        authenticateToken header secret now = .proceed p)) := by
  constructor
  · rintro (hnone | hempty)
    · simp [authenticateToken, hnone]
    · simp [authenticateToken, hempty]
  · intro t hext hne
    constructor
    · intro e herr
      simp [authenticateToken, hext, hne, herr]
    · intro p hok
      simp [authenticateToken, hext, hne, hok]

/-- C7 witness: a missing header gives 401, a garbage token gives 403,
and a valid token reaches the handler with its claims attached. -/
theorem gate_response_trichotomy_witness :
    authenticateToken none "sec" 0 =
      .response ⟨401, .obj [("error", .str "Access token required")]⟩ ∧
    authenticateToken (some "Bearer abc") "sec" 0 =
      .response ⟨403, .obj [("error", .str "Invalid or expired token")]⟩ ∧
    authenticateToken (some ("Bearer " ++ jwtSign ⟨7, "b", "c", 0, 86400⟩
        "sec")) "sec" 10 = .proceed ⟨7, "b", "c", 0, 86400⟩ :=
  ⟨(gate_response_trichotomy none "sec" 0).1 (Or.inl rfl),
   ((gate_response_trichotomy (some "Bearer abc") "sec" 0).2 "abc".data rfl
      (by decide)).1 .malformed rfl,
   ((gate_response_trichotomy (some ("Bearer " ++
        jwtSign ⟨7, "b", "c", 0, 86400⟩ "sec")) "sec" 10).2
      (jwtSign ⟨7, "b", "c", 0, 86400⟩ "sec").data rfl (by decide)).2
      ⟨7, "b", "c", 0, 86400⟩ rfl⟩

theorem splitSp_no_space (l : List Char) (h : ' ' ∉ l) : splitSp l = [l] := by
  induction l with
  | nil => rfl
  | cons c rest ih =>
    have hc : c ≠ ' ' := fun hc => h (hc ▸ List.mem_cons_self c rest)
    have hrest : ' ' ∉ rest := fun hm => h (List.mem_cons_of_mem c hm)
    simp [splitSp, hc, ih hrest]

theorem splitSp_append_space (w r : List Char) (h : ' ' ∉ w) :
    splitSp (w ++ ' ' :: r) = w :: splitSp r := by
  induction w with
  | nil => simp [splitSp]
  | cons c w ih =>
    have hc : c ≠ ' ' := fun hc => h (hc ▸ List.mem_cons_self c w)
    have hw : ' ' ∉ w := fun hm => h (List.mem_cons_of_mem c hm)
    rw [List.cons_append]
    simp [splitSp, hc, ih hw]

theorem jwtVerify_ok_ne_nil (t : List Char) (secret : String) (now : Nat)
    (p : JwtPayload) (h : jwtVerify t secret now = .ok p) : t ≠ [] := by
  intro ht
  subst ht
  simp [jwtVerify, decodePayload, decodeNat, splitSemi] at h

theorem header_data_split (w r : String) :
    (w ++ " " ++ r).data = w.data ++ ' ' :: r.data := by
  rw [String.data_append, String.data_append, List.append_assoc]
  congr 1

/-- C9: the request gate ignores the authorization scheme entirely — for
a header of the form `<word> <rest>` the part after the first space is
treated as the token (so `Basic <valid-jwt>` is accepted and the claims
attached), while a header with no space at all (e.g. a bare token or
`Bearer` alone) yields 401 "Access token required" rather than 403. -/
theorem gate_ignores_scheme :
    (∀ (w r : String), ' ' ∉ w.data → ' ' ∉ r.data →
      extractToken (some (w ++ " " ++ r)) = some r.data) ∧
    (∀ (scheme : String) (t : List Char) (secret : String) (now : Nat)
        (p : JwtPayload), ' ' ∉ scheme.data → ' ' ∉ t →
      jwtVerify t secret now = .ok p →
      authenticateToken (some (scheme ++ " " ++ String.mk t)) secret now =
        .proceed p) ∧
    (∀ (s secret : String) (now : Nat), ' ' ∉ s.data →
      authenticateToken (some s) secret now =
        .response ⟨401, .obj [("error", .str "Access token required")]⟩) := by
  have hext : ∀ (w r : String), ' ' ∉ w.data → ' ' ∉ r.data →
      extractToken (some (w ++ " " ++ r)) = some r.data := by
    intro w r hw hr
    have h0 : extractToken (some (w ++ " " ++ r)) =
        (splitSp ((w ++ " " ++ r).data)).get? 1 := rfl
    rw [h0, header_data_split, splitSp_append_space w.data r.data hw,
      splitSp_no_space r.data hr]
    rfl
  refine ⟨hext, ?_, ?_⟩
  · intro scheme t secret now p hs ht hok
    have h1 : extractToken (some (scheme ++ " " ++ String.mk t)) = some t :=
      hext scheme (String.mk t) hs ht
    simp [authenticateToken, h1, jwtVerify_ok_ne_nil t secret now p hok, hok]
  · intro s secret now hs
    have h1 : extractToken (some s) = none := by
      have h0 : extractToken (some s) = (splitSp s.data).get? 1 := rfl
      rw [h0, splitSp_no_space s.data hs]
      rfl
    simp [authenticateToken, h1]

/-- C9 witness: `Basic <valid-jwt>` is accepted with the claims attached,
the part after the first space of `Basic xyz` is the token candidate, and
the space-free header `Bearer` yields 401. -/
theorem gate_ignores_scheme_witness :
    extractToken (some ("Basic" ++ " " ++ "xyz")) = some "xyz".data ∧
    authenticateToken (some ("Basic" ++ " " ++
        String.mk (jwtSign ⟨9, "e", "n", 0, 86400⟩ "k").data)) "k" 3 =
      .proceed ⟨9, "e", "n", 0, 86400⟩ ∧
    authenticateToken (some "Bearer") "k" 3 =
      .response ⟨401, .obj [("error", .str "Access token required")]⟩ :=
  ⟨gate_ignores_scheme.1 "Basic" "xyz" (by decide) (by decide),
   gate_ignores_scheme.2.1 "Basic" (jwtSign ⟨9, "e", "n", 0, 86400⟩ "k").data
     "k" 3 ⟨9, "e", "n", 0, 86400⟩ (by decide) (by decide) rfl,
   gate_ignores_scheme.2.2 "Bearer" "k" 3 (by decide)⟩

/-- C8 counterexample: ids are assigned as `users.length + 1`, not
`max(existing ids) + 1`.  On a store loaded from a data file holding one
user with id 5, a successful registration assigns id 2 — not 6 — so the
claim as stated fails (the resulting ids are `[5, 2]`). -/
theorem register_id_max_counterexample :
    (register (loadUsers (some [⟨5, "eve", "e@x.com", "h", 0⟩]))
        ⟨some "bob", some "b@x.com", some "pw"⟩ 0
        (fun _ => .ok ())).1.status = 201 ∧
    (register (loadUsers (some [⟨5, "eve", "e@x.com", "h", 0⟩]))
        ⟨some "bob", some "b@x.com", some "pw"⟩ 0
        (fun _ => .ok ())).2.map (·.id) = [5, 2] ∧
    (2 : Nat) ≠ 5 + 1 :=
  ⟨rfl, rfl, by decide⟩

theorem runRegs_ids_invariant (reqs : List (RegisterRequest × Nat))
    (fsWrite : List User → Except String Unit) :
    ∀ users : List User, users.map (·.id) = List.range' 1 users.length →
      (runRegs reqs fsWrite users).map (·.id) =
        List.range' 1 (runRegs reqs fsWrite users).length := by
  induction reqs with
  | nil => intro users h; simpa [runRegs] using h
  | cons rt rest ih =>
    intro users h
    rcases rt with ⟨r, t⟩
    simp only [runRegs]
    apply ih
    rcases register_store_shape users r t fsWrite with hsh | ⟨hsh, _, _, _⟩
    · rw [hsh]; exact h
    · rw [hsh, List.map_append, List.length_append, h]
      have hcat : List.range' 1 (users.length + 1) =
          List.range' 1 users.length ++ [1 + users.length] :=
        List.range'_1_concat 1 users.length
      simp [mkNewUser, hcat, Nat.add_comm]

/-- C8 amended: on every successful (201) registration the new user's id
is the current user count plus one (`users.length + 1`) — which coincides
with `max(existing ids) + 1` on stores produced by registrations alone —
and starting from the empty store, only registering, the nth stored user
has id n and all stored ids are distinct. -/
theorem register_id_count_semantics :
    (∀ (users : List User) (req : RegisterRequest) (now : Nat)
        (fsWrite : List User → Except String Unit),
      (register users req now fsWrite).1.status = 201 →
      (register users req now fsWrite).2.map (·.id) =
        users.map (·.id) ++ [users.length + 1]) ∧
    (∀ (reqs : List (RegisterRequest × Nat))
        (fsWrite : List User → Except String Unit),
      (runRegs reqs fsWrite (loadUsers none)).map (·.id) =
        List.range' 1 (runRegs reqs fsWrite (loadUsers none)).length ∧
      ((runRegs reqs fsWrite (loadUsers none)).map (·.id)).Nodup) := by
  constructor
  · intro users req now fsWrite hstatus
    by_cases hv : (isMissing req.username || isMissing req.email ||
        isMissing req.password) = true
    · simp [register, hv] at hstatus
    · cases hfind : users.find? (fun u => u.email == req.email.getD "") with
      | some u => simp [register, hv, hfind] at hstatus
      | none =>
        simp only [Bool.or_eq_true, not_or, Bool.not_eq_true] at hv
        obtain ⟨⟨hu, he⟩, hp⟩ := hv
        rw [register_success users req now fsWrite hu he hp hfind]
        simp [mkNewUser]
  · intro reqs fsWrite
    have hids := runRegs_ids_invariant reqs fsWrite (loadUsers none) rfl
    exact ⟨hids, hids ▸ List.nodup_range' 1 _⟩

/-- C8 amended witness: the first registration into the empty store gets
id `0 + 1`, and a two-registration run from the empty store yields the
ids `[1, 2]` in order. -/
theorem register_id_count_semantics_witness :
    (register ([] : List User) ⟨some "alice", some "a@x.com", some "pw"⟩ 0
        (fun _ => .ok ())).2.map (·.id) =
      ([] : List User).map (·.id) ++ [([] : List User).length + 1] ∧
    (runRegs [(⟨some "alice", some "a@x.com", some "pw"⟩, 0),
        (⟨some "bob", some "b@x.com", some "pw2"⟩, 1)] (fun _ => .ok ())
        (loadUsers none)).map (·.id) =
      List.range' 1 (runRegs [(⟨some "alice", some "a@x.com", some "pw"⟩, 0),
        (⟨some "bob", some "b@x.com", some "pw2"⟩, 1)] (fun _ => .ok ())
        (loadUsers none)).length :=
  ⟨register_id_count_semantics.1 [] ⟨some "alice", some "a@x.com", some "pw"⟩
      0 (fun _ => .ok ()) rfl,
   (register_id_count_semantics.2
      [(⟨some "alice", some "a@x.com", some "pw"⟩, 0),
       (⟨some "bob", some "b@x.com", some "pw2"⟩, 1)] (fun _ => .ok ())).1⟩

end LoginServer
